import Mathlib

/-!
Verification of the aria-planner Chuffed bridge (src/c_src).

The development shallowly embeds the two C++ translation units:

* `chuffed_solver.cpp` — the NIF bridge (`solve_flatzinc_nif`,
  `create_solver_nif`, `destroy_solver_nif`) together with its helpers
  (`make_binary`, `get_binary`, `create_temp_file`, `execute_command`).
  External primitives (the file system, `mkstemp`, `GetTempFileName`,
  `popen`/`pclose`, `enif_alloc_binary`) are modelled by oracle parameters
  carrying their observable outcomes; the file system is a list of paths
  threaded through the call.
* `chuffed_cnode_simple…cpp` — the standalone driver `main`. The embedded
  Chuffed engine is an external collaborator, so its outcome (parse
  success, terminal status, captured solution text) is an oracle argument.

Byte strings are `List Char`.
-/

abbrev Str := List Char

/-- Mirrors `std::string::find(needle) != npos`: true iff `needle` occurs
as a contiguous subsequence of the haystack. -/
def strContains : Str → Str → Bool
  | [], needle => needle.isPrefixOf []
  | c :: rest, needle => needle.isPrefixOf (c :: rest) || strContains rest needle

/-- Mirrors C `remove(path)`: the file named `p` no longer exists afterwards. -/
def removeFile (p : Str) (fs : List Str) : List Str :=
  fs.filter (fun q => decide (q ≠ p))

/-- Erlang terms produced by the NIF, as far as the bridge builds them:
atoms, binaries (`enif_make_binary`), latin-1 strings (`enif_make_string`),
two-tuples and resource terms. -/
inductive Term where
  | atom : Str → Term
  | bin : Str → Term
  | str : Str → Term
  | tuple2 : Term → Term → Term
  | res : Nat → Term
deriving DecidableEq, Repr

/-- A host argument term as the bridge can observe it through
`enif_inspect_binary`: either a binary carrying bytes, or some other term. -/
inductive HostTerm where
  | bin : Str → HostTerm
  | nonbin : HostTerm
deriving DecidableEq, Repr

/-- `get_binary` (chuffed_solver.cpp lines 83-90): inspect the term as a
binary; on success yield its bytes. -/
def get_binary : HostTerm → Option Str
  | HostTerm.bin s => some s
  | HostTerm.nonbin => none

/-- `make_binary` (lines 93-100): allocate a binary of exactly the string's
size and copy the bytes; if `enif_alloc_binary` fails, return the bare atom
`error`. The allocator outcome is the oracle `alloc_ok`. -/
def make_binary (alloc_ok : Bool) (s : Str) : Term :=
  if alloc_ok then Term.bin s else Term.atom "error".data

/-- POSIX `mkstemp(template)` (modelling the libc contract): succeeds only
when the template ends in the six characters `XXXXXX`, replacing them with a
unique six-character token chosen by the OS; otherwise fails (EINVAL). -/
def mkstemp (tok : Str) (tmpl : Str) : Option Str :=
  if "XXXXXX".data.isSuffixOf tmpl && tok.length == 6 then
    some (tmpl.take (tmpl.length - 6) ++ tok)
  else
    none

/-- POSIX branch of `create_temp_file` (lines 144-158): builds the template
`"/tmp/" + pfx + "XXXXXX" + sfx` and hands it to `mkstemp`. -/
def create_temp_file_posix (tok : Str) (pfx sfx : Str) : Option Str :=
  mkstemp tok ("/tmp/".data ++ pfx ++ "XXXXXX".data ++ sfx)

/-- Windows branch of `create_temp_file` (lines 120-143): `GetTempFileNameA`
creates (atomically) a file named `dir + "CHF" + tok + ".tmp"`, using the
hard-coded three-character prefix `CHF` — the `pfx` argument of
`create_temp_file` is ignored; the code then deletes that file, strips the
`.tmp` extension and appends `sfx`, yielding the name it later reopens
non-atomically. This function gives the resulting path. -/
def create_temp_file_windows (dir : Str) (tok : Str) (sfx : Str) : Str :=
  (dir ++ "CHF".data ++ tok) ++ sfx

/-- `execute_command`, POSIX branch (lines 162-195). The `popen`/`pclose`
pair is the oracle: `none` when `popen` returns NULL, otherwise the combined
stdout+stderr text and the raw `pclose` return value. The code fails when
`pclose` returns -1 and otherwise normalizes via `WEXITSTATUS`, i.e. bits
8-15 of the raw wait status. -/
def execute_command (oracle : Option (Str × Int)) : Option (Str × Int) :=
  match oracle with
  | none => none
  | some (out, st) =>
    if st = -1 then none
    else some (out, (((st.toNat / 256) % 256 : Nat) : Int))

/-- POSIX encoding of the wait status of a child that exited normally with
exit code `c`: the code is placed in bits 8-15 of the status word. -/
def encode_wait_status (c : Nat) : Int :=
  ((256 * (c % 256) : Nat) : Int)

/-- Command construction (line 252, POSIX): the solver executable name and
the scratch path, nothing else. -/
def build_command (temp_file : Str) : Str :=
  "chuffed ".data ++ temp_file

/-- Options defaulting (lines 213-215): inspect the second argument as a
binary, fall back to the literal `{}` when that fails. -/
def options_or_default (a1 : HostTerm) : Str :=
  (get_binary a1).getD "{}".data

/-- Result classification (lines 268-281): `exit_code == 0` or the output
containing the `==========` terminator yields the ok tuple, anything else
the error tuple; either way the payload is `make_binary` of the output. -/
def classify_result (alloc_ok : Bool) (exit_code : Int) (output : Str) : Term :=
  if exit_code = 0 || strContains output "==========".data then
    Term.tuple2 (Term.atom "ok".data) (make_binary alloc_ok output)
  else
    Term.tuple2 (Term.atom "error".data) (make_binary alloc_ok output)

/-- Oracle outcomes of the external primitives used by one call of
`solve_flatzinc_nif`: the scratch path chosen by `create_temp_file` (`none`
when creation fails), `ofstream::is_open`, `ofstream::good()` after the
write and close, the `popen`/`pclose` outcome and the allocator outcome. -/
structure Env where
  ctf : Option Str
  open_ok : Bool
  write_good : Bool
  popen : Option (Str × Int)
  alloc_ok : Bool
deriving DecidableEq, Repr

/-- Observable outcome of one `solve_flatzinc_nif` call: the returned term,
the file system after return, and the command lines handed to the shell. -/
structure SolveOut where
  result : Term
  fs : List Str
  cmds : List Str
deriving DecidableEq, Repr

/-- `solve_flatzinc_nif` (lines 198-282), with the external primitives
replaced by the `Env` oracle and the file system threaded explicitly.
Control flow follows the source: payload inspection, options defaulting,
scratch-file creation, open, write, spawn, unconditional delete,
classification; every error path after creation deletes the scratch file. -/
def solve_flatzinc_nif (env : Env) (a0 a1 : HostTerm) (fs : List Str) : SolveOut :=
  match get_binary a0 with
  | none =>
    ⟨Term.tuple2 (Term.atom "error".data) (Term.atom "invalid_flatzinc".data), fs, []⟩
  | some _flatzinc_content =>
    let _options_json := options_or_default a1
    match env.ctf with
    | none =>
      ⟨Term.tuple2 (Term.atom "error".data) (Term.str "failed_to_create_temp_file".data), fs, []⟩
    | some temp_file =>
      let fs1 := temp_file :: fs
      if env.open_ok = false then
        ⟨Term.tuple2 (Term.atom "error".data) (Term.str "failed_to_open_temp_file".data),
          removeFile temp_file fs1, []⟩
      else if env.write_good = false then
        ⟨Term.tuple2 (Term.atom "error".data) (Term.str "failed_to_write_temp_file".data),
          removeFile temp_file fs1, []⟩
      else
        let command := build_command temp_file
        match execute_command env.popen with
        | none =>
          ⟨Term.tuple2 (Term.atom "error".data) (Term.str "failed_to_execute_chuffed".data),
            removeFile temp_file fs1, [command]⟩
        | some (output, exit_code) =>
          ⟨classify_result env.alloc_ok exit_code output, removeFile temp_file fs1, [command]⟩

/-- The NIF resource payload (lines 34-37): a solver pointer (modelled as
`Option Nat`, `none` being NULL) and the `initialized` flag. -/
structure ChuffedSolver where
  solver : Option Nat
  initialized : Bool
deriving DecidableEq, Repr

/-- `chuffed_solver_destructor` (lines 55-61): clears `initialized` when it
is set, otherwise touches nothing. -/
def chuffed_solver_destructor (s : ChuffedSolver) : ChuffedSolver :=
  if s.initialized then { s with initialized := false } else s

/-- The argument handed to `destroy_solver_nif` as `enif_get_resource` can
observe it: a live resource of the registered type (with its payload and
current reference count), or any other term. -/
inductive HandleArg where
  | res : ChuffedSolver → Nat → HandleArg
  | notRes : HandleArg
deriving DecidableEq, Repr

/-- `destroy_solver_nif` (lines 312-327): invalid resources yield the tuple
(error, invalid_resource); a valid resource yields the atom `ok` and the
call performs no state change — in particular no `enif_release_resource`
call occurs, so the handle and its reference count are returned unchanged. -/
def destroy_solver_nif : HandleArg → Term × HandleArg
  | HandleArg.notRes =>
    (Term.tuple2 (Term.atom "error".data) (Term.atom "invalid_resource".data), HandleArg.notRes)
  | HandleArg.res s c => (Term.atom "ok".data, HandleArg.res s c)

/-- `create_solver_nif` (lines 286-309): allocates the resource with a null
solver pointer and `initialized = false`, makes the resource term and drops
the allocation reference, leaving the term as the only owner (count 1).
`alloc_ok` is the `enif_alloc_resource` oracle. -/
def create_solver_nif (alloc_ok : Bool) (rid : Nat) : Term × Option HandleArg :=
  if alloc_ok then
    (Term.tuple2 (Term.atom "ok".data) (Term.res rid),
      some (HandleArg.res ⟨none, false⟩ 1))
  else
    (Term.tuple2 (Term.atom "error".data) (Term.atom "allocation_failed".data), none)

/-- Chuffed engine terminal statuses referenced by the driver: `RES_SAT`,
`RES_LUN` (locally unsatisfiable), `RES_GUN` (globally unsatisfiable), and
the remaining ambiguous case `RES_UNK`. -/
inductive EngineStatus where
  | RES_SAT : EngineStatus
  | RES_LUN : EngineStatus
  | RES_GUN : EngineStatus
  | RES_UNK : EngineStatus
deriving DecidableEq, Repr

/-- Outcome of the embedded solver run inside the driver's try block:
either a normal return (did `FlatZinc::solve` leave a non-null model, the
engine status, and the text captured from the diverted output stream), or
an escaping exception. -/
inductive RunOutcome where
  | normal : Bool → EngineStatus → Str → RunOutcome
  | exn : Str → RunOutcome
  | unknownExn : RunOutcome
deriving DecidableEq, Repr

/-- Input accumulation of the driver (lines 24-33): each `getline` line is
appended followed by a newline; the trailing-newline patch-up never fires
because every appended line already ends in one. -/
def read_all_input (input_lines : List Str) : Str :=
  let content := input_lines.foldl (fun acc l => acc ++ l ++ ['\n']) []
  if content ≠ [] ∧ content.getLast? ≠ some '\n' then content ++ ['\n'] else content

/-- What one driver run writes and returns: stdout text, stderr text and
the process exit code. -/
structure DriverOut where
  out : Str
  err : Str
  exit : Nat
deriving DecidableEq, Repr

/-- `main` of the standalone driver (chuffed_cnode_simple…cpp lines
20-94): empty accumulated input is rejected before the solver runs; then
the engine outcome oracle decides the branch exactly as the source does
(parse failure, SAT, LUN/GUN, ambiguous-with-empty-output,
ambiguous-with-output, structured and unstructured exceptions). -/
def driver_main (input_lines : List Str) (oc : RunOutcome) : DriverOut :=
  let flatzinc_content := read_all_input input_lines
  if flatzinc_content = [] then
    ⟨[], "error\nNo FlatZinc content provided\n".data, 1⟩
  else
    match oc with
    | RunOutcome.exn msg => ⟨[], "error\n".data ++ msg ++ ['\n'], 1⟩
    | RunOutcome.unknownExn => ⟨[], "error\nUnknown exception\n".data, 1⟩
    | RunOutcome.normal parse_ok status solution =>
      if parse_ok = false then
        ⟨[], "error\nFailed to parse FlatZinc problem\n".data, 1⟩
      else
        match status with
        | EngineStatus.RES_SAT => ⟨"ok\n".data ++ solution, [], 0⟩
        | EngineStatus.RES_LUN => ⟨[], "error\nUNSATISFIABLE\n".data, 1⟩
        | EngineStatus.RES_GUN => ⟨[], "error\nUNSATISFIABLE\n".data, 1⟩
        | EngineStatus.RES_UNK =>
          if solution = [] then
            ⟨[], "error\nNo solution found\n".data, 1⟩
          else
            ⟨"ok\n".data ++ solution, [], 0⟩

/-! ## Helper lemmas -/

theorem removeFile_not_mem (p : Str) (fs : List Str) : p ∉ removeFile p fs := by
  intro h
  rcases List.mem_filter.mp h with ⟨-, hp⟩
  simp at hp

theorem foldl_append_length (ls : List Str) (acc : Str) :
    acc.length ≤ (ls.foldl (fun a l => a ++ l ++ ['\n']) acc).length := by
  induction ls generalizing acc with
  | nil => simp
  | cons l ls ih =>
    calc acc.length ≤ (acc ++ l ++ ['\n']).length := by simp
    _ ≤ _ := ih (acc ++ l ++ ['\n'])

theorem read_all_input_cons_ne_nil (l : Str) (ls : List Str) :
    read_all_input (l :: ls) ≠ [] := by
  unfold read_all_input
  simp only [List.foldl_cons]
  have hlen : 0 < (ls.foldl (fun a l => a ++ l ++ ['\n']) ([] ++ l ++ ['\n'])).length := by
    have h := foldl_append_length ls ([] ++ l ++ ['\n'])
    have hpos : 0 < ([] ++ l ++ ['\n']).length := by simp
    exact lt_of_lt_of_le hpos h
  have hne : (ls.foldl (fun a l => a ++ l ++ ['\n']) ([] ++ l ++ ['\n'])) ≠ [] := by
    intro hcon
    rw [hcon] at hlen
    simp at hlen
  split
  · simp
  · exact hne

theorem ok_isPrefixOf_append (s : Str) :
    "ok\n".data.isPrefixOf ("ok\n".data ++ s) = true := by
  rw [List.isPrefixOf_iff_prefix]
  exact List.prefix_append _ _

/-! ## Claims -/

/-- C1: the OutOfProcessBridge's result classification returns the ok tuple
carrying the output whenever the exit code is zero or the output contains
the literal `==========` terminator — in particular for a run that exited
non-zero but whose output contains the solution terminator — and the error
tuple carrying the output otherwise. -/
theorem classify_result_spec (e : Int) (o : Str) :
    ((e = 0 ∨ strContains o "==========".data = true) →
      classify_result true e o = Term.tuple2 (Term.atom "ok".data) (Term.bin o)) ∧
    ((e ≠ 0 ∧ strContains o "==========".data = false) →
      classify_result true e o = Term.tuple2 (Term.atom "error".data) (Term.bin o)) := by
  constructor
  · intro h
    unfold classify_result make_binary
    rcases h with h | h
    · simp [h]
    · simp [h]
  · rintro ⟨h1, h2⟩
    unfold classify_result make_binary
    simp [h1, h2]

/-- C1 witness: a non-zero exit with the terminator is classified ok, and a
non-zero exit without it is classified error. -/
theorem classify_result_spec_witness :
    classify_result true 5 "==========".data =
      Term.tuple2 (Term.atom "ok".data) (Term.bin "==========".data) ∧
    classify_result true 5 "oops".data =
      Term.tuple2 (Term.atom "error".data) (Term.bin "oops".data) :=
  ⟨(classify_result_spec 5 "==========".data).1 (Or.inr (by decide)),
   (classify_result_spec 5 "oops".data).2 ⟨by decide, by decide⟩⟩

/-- C2: whenever scratch-file creation succeeds (the oracle yields a path),
the scratch file is absent from the file system when `solve_flatzinc_nif`
returns, on the success path and on every error path — open failure, write
failure, spawn failure and non-zero solver exit alike. -/
theorem solve_deletes_scratch_file (env : Env) (payload : Str) (a1 : HostTerm)
    (fs : List Str) (p : Str) (h : env.ctf = some p) :
    p ∉ (solve_flatzinc_nif env (HostTerm.bin payload) a1 fs).fs := by
  obtain ⟨ctf, opok, wg, pp, al⟩ := env
  simp only [Env.ctf] at h
  subst h
  simp only [solve_flatzinc_nif, get_binary]
  cases opok with
  | false => exact removeFile_not_mem p (p :: fs)
  | true =>
    cases wg with
    | false => exact removeFile_not_mem p (p :: fs)
    | true =>
      simp only [Bool.true_eq_false, if_false]
      cases hec : execute_command pp with
      | none => exact removeFile_not_mem p (p :: fs)
      | some pr =>
        cases pr with
        | mk output exit_code => exact removeFile_not_mem p (p :: fs)

/-- C2 witness: a concrete successful run deletes its scratch file. -/
theorem solve_deletes_scratch_file_witness :
    "/tmp/chuffed_ab12cd.fzn".data ∉
      (solve_flatzinc_nif
        ⟨some "/tmp/chuffed_ab12cd.fzn".data, true, true, some ("==========\n".data, 0), true⟩
        (HostTerm.bin "solve satisfy;".data) (HostTerm.bin "{}".data) []).fs :=
  solve_deletes_scratch_file _ "solve satisfy;".data (HostTerm.bin "{}".data) []
    "/tmp/chuffed_ab12cd.fzn".data rfl

/-- C3: the standalone driver rejects empty input with the fixed stderr
message and exit 1; SAT yields the ok block on stdout; local or global
unsatisfiability yields `error` then `UNSATISFIABLE` on stderr; the
ambiguous status yields `error` then `No solution found` when the captured
output is empty and the ok block otherwise; and for every run the exit
status is 0 exactly when an ok line was written to stdout. -/
theorem driver_main_spec (input_lines : List Str) (oc : RunOutcome) (solution : Str) :
    (driver_main [] oc = ⟨[], "error\nNo FlatZinc content provided\n".data, 1⟩) ∧
    (input_lines ≠ [] →
      driver_main input_lines (RunOutcome.normal true EngineStatus.RES_SAT solution) =
        ⟨"ok\n".data ++ solution, [], 0⟩) ∧
    (input_lines ≠ [] →
      driver_main input_lines (RunOutcome.normal true EngineStatus.RES_LUN solution) =
        ⟨[], "error\nUNSATISFIABLE\n".data, 1⟩ ∧
      driver_main input_lines (RunOutcome.normal true EngineStatus.RES_GUN solution) =
        ⟨[], "error\nUNSATISFIABLE\n".data, 1⟩) ∧
    (input_lines ≠ [] →
      (solution = [] →
        driver_main input_lines (RunOutcome.normal true EngineStatus.RES_UNK solution) =
          ⟨[], "error\nNo solution found\n".data, 1⟩) ∧
      (solution ≠ [] →
        driver_main input_lines (RunOutcome.normal true EngineStatus.RES_UNK solution) =
          ⟨"ok\n".data ++ solution, [], 0⟩)) ∧
    ((driver_main input_lines oc).exit = 0 ↔
      "ok\n".data.isPrefixOf (driver_main input_lines oc).out = true) := by
  cases input_lines with
  | nil =>
    refine ⟨rfl, fun hc => absurd rfl hc, fun hc => absurd rfl hc, fun hc => absurd rfl hc, ?_⟩
    constructor
    · intro h0
      simp [driver_main, read_all_input] at h0
    · intro hpre
      simp [driver_main, read_all_input, List.isPrefixOf] at hpre
  | cons l ls =>
    have hne := read_all_input_cons_ne_nil l ls
    refine ⟨rfl, ?_, ?_, ?_, ?_⟩
    · intro _
      simp [driver_main, hne]
    · intro _
      constructor <;> simp [driver_main, hne]
    · intro _
      constructor
      · intro hs
        simp [driver_main, hne, hs]
      · intro hs
        simp [driver_main, hne, hs]
    · rcases oc with ⟨pok, status, sol⟩ | msg | _
      · cases pok with
        | false =>
          simp [driver_main, hne, List.isPrefixOf]
        | true =>
          cases status with
          | RES_SAT => simp [driver_main, hne, ok_isPrefixOf_append]
          | RES_LUN => simp [driver_main, hne, List.isPrefixOf]
          | RES_GUN => simp [driver_main, hne, List.isPrefixOf]
          | RES_UNK =>
            by_cases hs : sol = []
            · simp [driver_main, hne, hs, List.isPrefixOf]
            · simp [driver_main, hne, hs, ok_isPrefixOf_append]
      · simp [driver_main, hne, List.isPrefixOf]
      · simp [driver_main, hne, List.isPrefixOf]

/-- C3 witness: concrete runs exercising the empty-input branch, the SAT
branch, the UNSATISFIABLE branch and both ambiguous-status branches. -/
theorem driver_main_spec_witness :
    (driver_main [] RunOutcome.unknownExn =
      ⟨[], "error\nNo FlatZinc content provided\n".data, 1⟩) ∧
    (driver_main ["a".data] (RunOutcome.normal true EngineStatus.RES_SAT "s".data) =
      ⟨"ok\n".data ++ "s".data, [], 0⟩) ∧
    (driver_main ["a".data] (RunOutcome.normal true EngineStatus.RES_LUN "s".data) =
      ⟨[], "error\nUNSATISFIABLE\n".data, 1⟩) ∧
    (driver_main ["a".data] (RunOutcome.normal true EngineStatus.RES_UNK []) =
      ⟨[], "error\nNo solution found\n".data, 1⟩) ∧
    (driver_main ["a".data] (RunOutcome.normal true EngineStatus.RES_UNK "s".data) =
      ⟨"ok\n".data ++ "s".data, [], 0⟩) :=
  ⟨(driver_main_spec [] RunOutcome.unknownExn []).1,
   (driver_main_spec ["a".data] RunOutcome.unknownExn "s".data).2.1 (by decide),
   ((driver_main_spec ["a".data] RunOutcome.unknownExn "s".data).2.2.1 (by decide)).1,
   ((driver_main_spec ["a".data] RunOutcome.unknownExn []).2.2.2.1 (by decide)).1 rfl,
   ((driver_main_spec ["a".data] RunOutcome.unknownExn "s".data).2.2.2.1 (by decide)).2 (by decide)⟩

/-- C4 (code bug): `create_temp_file("chuffed_", ".fzn")` cannot behave as
claimed. On POSIX the template handed to `mkstemp` is
`/tmp/chuffed_XXXXXX.fzn`, which does not end in `XXXXXX`, so `mkstemp`
fails for every token the OS could pick and no scratch file is ever
created; on Windows the file that `GetTempFileNameA` created atomically is
deleted and the name is rebuilt by string surgery with the hard-coded
prefix `CHF`, so the resulting name does not contain `chuffed_`. -/
theorem create_temp_file_bug :
    (∀ tok : Str, create_temp_file_posix tok "chuffed_".data ".fzn".data = none) ∧
    create_temp_file_windows "C:\\Temp\\".data "1a2b".data ".fzn".data =
      "C:\\Temp\\CHF1a2b.fzn".data ∧
    strContains "C:\\Temp\\CHF1a2b.fzn".data "chuffed_".data = false := by
  refine ⟨?_, by decide, by decide⟩
  intro tok
  unfold create_temp_file_posix mkstemp
  rw [show ("XXXXXX".data.isSuffixOf
      ("/tmp/".data ++ "chuffed_".data ++ "XXXXXX".data ++ ".fzn".data)) = false from by decide]
  simp

/-- C5 counterexample: two invocations identical except for the options
argument hand the solver the very same command line, which does not contain
the options bytes — the options do not influence the solver invocation. -/
theorem solve_ignores_options_cex :
    solve_flatzinc_nif ⟨some "/tmp/chuffed_abc123.fzn".data, true, true, some ([], 256), true⟩
        (HostTerm.bin "solve satisfy;".data) (HostTerm.bin "AAAA".data) [] =
      solve_flatzinc_nif ⟨some "/tmp/chuffed_abc123.fzn".data, true, true, some ([], 256), true⟩
        (HostTerm.bin "solve satisfy;".data) (HostTerm.bin "BBBB".data) [] ∧
    (solve_flatzinc_nif ⟨some "/tmp/chuffed_abc123.fzn".data, true, true, some ([], 256), true⟩
        (HostTerm.bin "solve satisfy;".data) (HostTerm.bin "AAAA".data) []).cmds =
      ["chuffed /tmp/chuffed_abc123.fzn".data] ∧
    strContains "chuffed /tmp/chuffed_abc123.fzn".data "AAAA".data = false := by
  refine ⟨by decide, by decide, by decide⟩

/-- C5 (amended): the options blob is defaulted to the literal `\x7b\x7d`
when the second argument is not inspectable as a binary, but it is never
read again: the command line handed to the solver is independent of the
options argument. -/
theorem options_defaulted_but_unused (o o' : Str) (env : Env) (a0 : HostTerm) (fs : List Str) :
    options_or_default HostTerm.nonbin = "{}".data ∧
    options_or_default (HostTerm.bin o) = o ∧
    (solve_flatzinc_nif env a0 (HostTerm.bin o) fs).cmds =
      (solve_flatzinc_nif env a0 (HostTerm.bin o') fs).cmds := by
  refine ⟨rfl, rfl, ?_⟩
  cases a0 <;> rfl

/-- C6: a first argument that is not inspectable as a binary yields the
tuple (error, invalid_flatzinc), with the file system returned unchanged
and no command spawned — the payload check precedes any file-system
action. -/
theorem solve_nonbinary_payload (env : Env) (a1 : HostTerm) (fs : List Str) :
    solve_flatzinc_nif env HostTerm.nonbin a1 fs =
      ⟨Term.tuple2 (Term.atom "error".data) (Term.atom "invalid_flatzinc".data), fs, []⟩ := rfl

/-- C7 counterexample: for the raw wait status 256 (a child that exited
normally with code 1), the bridge's normalized exit code is 1, whereas the
low 8 bits of the termination status returned by the reap primitive are 0 —
the claim's equality fails. -/
theorem execute_command_low_bits_cex :
    execute_command (some ([], 256)) = some ([], 1) ∧
    (256 : Int) % 256 = 0 ∧ (1 : Int) ≠ 0 := by
  refine ⟨by decide, by decide, by decide⟩

/-- C7 (amended): the normalized exit code `solve` hands to the classifier
is `WEXITSTATUS` of the raw wait status, i.e. bits 8-15 of the status
returned by the reap primitive — equivalently, the low 8 bits of the code
the child passed to `exit`. -/
theorem execute_command_wexitstatus (c : Nat) (o : Str) :
    execute_command (some (o, encode_wait_status c)) = some (o, ((c % 256 : Nat) : Int)) := by
  have hne : encode_wait_status c ≠ -1 := by unfold encode_wait_status; omega
  simp only [execute_command]
  rw [if_neg hne]
  have h : (encode_wait_status c).toNat / 256 % 256 = c % 256 := by
    unfold encode_wait_status
    omega
  rw [h]

/-- C8 counterexample: destroying a live handle of the registered kind
returns the atom `ok` but performs no release at all — the handle, its
payload and its reference count are returned exactly as they were, refuting
the clause that destroy releases the handle. -/
theorem destroy_solver_no_release_cex :
    (destroy_solver_nif (HandleArg.res ⟨none, false⟩ 1)).1 = Term.atom "ok".data ∧
    (destroy_solver_nif (HandleArg.res ⟨none, false⟩ 1)).2 = HandleArg.res ⟨none, false⟩ 1 := by
  refine ⟨by decide, by decide⟩

/-- C8 (amended): destroy_handle returns the tuple (error, invalid_resource)
when its argument is not a handle of the registered resource kind; otherwise
it returns the atom `ok` without releasing anything (release happens when
the host garbage-collects the resource term, through the registered
destructor); repeated destruction of the same handle again returns `ok` and
never aborts, and the destructor is idempotent — it never acts on live
state twice. -/
theorem destroy_solver_spec (s : ChuffedSolver) (c : Nat) :
    destroy_solver_nif HandleArg.notRes =
      (Term.tuple2 (Term.atom "error".data) (Term.atom "invalid_resource".data),
        HandleArg.notRes) ∧
    destroy_solver_nif (HandleArg.res s c) = (Term.atom "ok".data, HandleArg.res s c) ∧
    (destroy_solver_nif (destroy_solver_nif (HandleArg.res s c)).2).1 = Term.atom "ok".data ∧
    chuffed_solver_destructor (chuffed_solver_destructor s) = chuffed_solver_destructor s := by
  refine ⟨rfl, rfl, rfl, ?_⟩
  cases hs : s.initialized <;> simp [chuffed_solver_destructor, hs]

/-- C9 counterexample: with the allocator failing while the classifier is on
the success branch (exit code 0), the caller receives the tuple whose tag is
the atom `ok` and whose payload is the bare atom `error` — the allocation
failure is not reported as an error-tagged result. -/
theorem make_binary_alloc_failure_cex :
    (solve_flatzinc_nif ⟨some "/tmp/chuffed_zz11qq.fzn".data, true, true,
        some ("out".data, 0), false⟩
        (HostTerm.bin "solve satisfy;".data) (HostTerm.bin "{}".data) []).result =
      Term.tuple2 (Term.atom "ok".data) (Term.atom "error".data) ∧
    Term.atom "ok".data ≠ Term.atom "error".data := by
  refine ⟨by decide, by decide⟩

/-- C9 (amended): `make_binary` builds a binary holding exactly the string's
bytes when allocation succeeds and yields the bare atom `error` when it
fails; that atom lands in the payload position of the tagged result, whose
tag is still decided solely by the classification — on the success branch
the caller receives the tuple (ok, error-atom). -/
theorem make_binary_spec (o : Str) :
    make_binary true o = Term.bin o ∧
    make_binary false o = Term.atom "error".data ∧
    classify_result false 0 o = Term.tuple2 (Term.atom "ok".data) (Term.atom "error".data) := by
  refine ⟨rfl, rfl, ?_⟩
  unfold classify_result make_binary
  simp

/-- C10: the observable behaviour of `solve_flatzinc_nif` — returned term,
file system and spawned command lines — is identical for every pair of
second arguments: after the defaulting step the options are never read. -/
theorem solve_options_independent (env : Env) (a0 a1 a1' : HostTerm) (fs : List Str) :
    solve_flatzinc_nif env a0 a1 fs = solve_flatzinc_nif env a0 a1' fs := by
  cases a0 <;> rfl
